import Mathlib

/-!
Verification development for the Cadence interpreter core: the value and
storage model, the resource-safety enforcement machinery, the program
cache, and the error-classification policy.

Definitions in the `Cadence` namespace are shallow embeddings.  Those for
`accountGetCapabilityFunction` and `AccountReferenceValue` are translated
directly from `runtime/interpreter/value_account.go` and
`runtime/interpreter/value_accountreference.go`.  The interpreter engine
itself (resource-safety tracker, transfer protocol, destructor machinery,
program cache, top-level error recovery, metering) is not part of the
sources at hand, so those components are modelled from the specification,
as marked in each doc comment.
-/

namespace Cadence

/-- The three path domains of account storage (`common.PathDomain`). -/
inductive PathDomain where
  | storage
  | public
  | priv
  deriving DecidableEq, Repr

/-- A path value: a domain together with a string identifier
(`interpreter.PathValue`). -/
structure PathValue where
  domain : PathDomain
  identifier : String
  deriving DecidableEq, Repr

/-- The fragment of `sema.Type` inspected by the embedded operations:
the path-type hierarchy, reference types, and an opaque remainder. -/
inductive SemaType where
  | pathType
  | capabilityPathType
  | storagePathType
  | publicPathType
  | privatePathType
  | referenceType (authorized : Bool) (ty : SemaType)
  | otherType (id : Nat)
  deriving DecidableEq, Repr

/-- The static type of a path value, determined by its domain
(`PathValue.StaticType`): storage paths have storage-path type, public
paths public-path type, private paths private-path type. -/
def PathValue.staticType (p : PathValue) : SemaType :=
  match p.domain with
  | .storage => .storagePathType
  | .public => .publicPathType
  | .priv => .privatePathType

/-- The runtime values that `accountGetCapabilityFunction` distinguishes
when reading from storage: an ID-based capability, a path-based
capability, or any other value. -/
inductive IValue where
  | idCapability (id : Nat) (address : Nat) (borrowType : Option SemaType)
  | pathCapability (address : Nat) (path : PathValue) (borrowType : Option SemaType)
  | someOther (n : Nat)
  deriving DecidableEq, Repr

/-- Result of invoking the account `getCapability` function: either a
thrown type-mismatch error (a Go panic with `TypeMismatchError`) or a
returned capability value. -/
inductive GetCapabilityResult where
  | typeMismatch (expected actual : SemaType)
  | value (v : IValue)
  deriving DecidableEq, Repr

/-- The borrow static type requested by the caller: the optional type
parameter is kept only when it is a reference type (Go:
`borrowType, _ = ty.(*sema.ReferenceType)`), and `ConvertSemaToStaticType`
is the identity embedding here. -/
def requestedBorrowStaticType (typeParameter : Option SemaType) : Option SemaType :=
  match typeParameter with
  | some (.referenceType a t) => some (.referenceType a t)
  | _ => none

/-- Embedding of the invocation body of `accountGetCapabilityFunction`
(`runtime/interpreter/value_account.go`).  The interpreter services it
consults — `IsSubTypeOfSemaType` and `ReadStored` — are passed as
parameters.  The function checks that the path argument's static type is
a subtype of the required path type (panicking with a type-mismatch error
otherwise), extracts the optional reference-typed borrow type parameter,
reads the value stored at (address, domain, identifier), and returns an
ID capability (with the stored ID, the account address, and the
*requested* borrow type) when an ID capability is stored there, and a
path capability otherwise. -/
def accountGetCapabilityFunction
    (isSubType : SemaType → SemaType → Bool)
    (readStored : Nat → PathDomain → String → Option IValue)
    (address : Nat)
    (requiredPathType : SemaType)
    (pathArg : PathValue)
    (typeParameter : Option SemaType) : GetCapabilityResult :=
  let pathStaticType := pathArg.staticType
  if ¬ (isSubType pathStaticType requiredPathType) then
    .typeMismatch requiredPathType pathStaticType
  else
    let borrowStaticType := requestedBorrowStaticType typeParameter
    match readStored address pathArg.domain pathArg.identifier with
    | some (.idCapability id _ _) =>
        .value (.idCapability id address borrowStaticType)
    | _ =>
        .value (.pathCapability address pathArg borrowStaticType)

/-- An account reference value
(`runtime/interpreter/value_accountreference.go`): a borrowed type (which
may be absent), a cached auth-account value (absent until first use), and
an address. -/
structure AccountReferenceValue where
  borrowedType : Option SemaType
  authAccountCache : Option Nat
  address : Nat
  deriving DecidableEq, Repr

/-- `NewUnmeteredAccountReferenceValue`: constructs an account reference
from an address and a borrowed type, with no cached auth account. -/
def newUnmeteredAccountReferenceValue (address : Nat) (borrowedType : Option SemaType) :
    AccountReferenceValue :=
  { borrowedType := borrowedType
    authAccountCache := none
    address := address }

/-- `AccountReferenceValue.IsStorable`: always false. -/
def AccountReferenceValue.isStorable (_ : AccountReferenceValue) : Bool :=
  false

/-- The result of `Storable`: account references are wrapped as
`NonStorable`. -/
inductive StorableResult where
  | nonStorable (v : AccountReferenceValue)
  | slabStorable (slab : Nat)
  deriving DecidableEq, Repr

/-- `AccountReferenceValue.Storable`: returns a `NonStorable` wrapping the
value itself, never an actual storable slab. -/
def AccountReferenceValue.storable (v : AccountReferenceValue) : StorableResult :=
  .nonStorable v

/-- `AccountReferenceValue.NeedsStoreTo`: always false. -/
def AccountReferenceValue.needsStoreTo (_ : AccountReferenceValue) (_ : Nat) : Bool :=
  false

/-- `AccountReferenceValue.IsResourceKinded`: always false. -/
def AccountReferenceValue.isResourceKinded (_ : AccountReferenceValue) : Bool :=
  false

/-- `AccountReferenceValue.Transfer`: when `remove` is set the referenced
slab is removed (recorded in the Boolean component), and the very same
reference value is returned unchanged. -/
def AccountReferenceValue.transfer (v : AccountReferenceValue) (remove : Bool) :
    AccountReferenceValue × Bool :=
  (v, remove)

/-- `AccountReferenceValue.Clone`: a fresh unmetered account reference
with the same address and borrowed type (the auth-account cache is not
carried over). -/
def AccountReferenceValue.clone (v : AccountReferenceValue) : AccountReferenceValue :=
  newUnmeteredAccountReferenceValue v.address v.borrowedType

/-- `AccountReferenceValue.DeepRemove`: a no-op; the slab store is left
untouched. -/
def AccountReferenceValue.deepRemove (_ : AccountReferenceValue) (slabStore : List Nat) :
    List Nat :=
  slabStore

/-- `AccountReferenceValue.Equal`: two account references are equal when
their addresses agree and their borrowed types agree (both absent, or both
present and equal). -/
def AccountReferenceValue.equal (v other : AccountReferenceValue) : Bool :=
  if v.address ≠ other.address then
    false
  else
    match v.borrowedType, other.borrowedType with
    | none, none => true
    | none, some _ => false
    | some _, none => false
    | some t, some u => t = u

/-! ## Resource-safety tracker (modelled from the spec) -/

/-- Modelled from the spec: the per-binding state machine of the
resource-safety tracker (missing from the sources at hand; only its tests
are present).  A resource-kinded binding is Valid, or terminally
Invalidated (moved out), or terminally Destroyed. -/
inductive BindingState where
  | valid
  | invalidated
  | destroyed
  deriving DecidableEq, Repr

/-- Modelled from the spec: the determinate user errors raised by the
resource-safety machinery — invalidated-resource-use,
destroyed-resource-use, invalidated-resource-reference, and
recursive-transfer. -/
inductive ResourceUseError where
  | invalidatedResourceUse
  | destroyedResourceUse
  | invalidatedResourceReference
  | recursiveTransfer
  deriving DecidableEq, Repr

/-- Modelled from the spec: a binding (variable, field slot, or container
element) holding a resource value, tagged with its tracker state.  The
resource value itself is identified by a numeric id. -/
structure Binding where
  state : BindingState
  value : Nat
  deriving Repr

/-- Modelled from the spec: the tracker state of one interpreter
invocation, mapping binding names to bindings. -/
def Tracker : Type :=
  String → Binding

/-- Update one binding of a tracker. -/
def setBinding (t : Tracker) (name : String) (b : Binding) : Tracker :=
  fun m => if m = name then b else t m

/-- The kinds of access a program can attempt against a binding: read,
write, reference-take, or transfer. -/
inductive AccessKind where
  | read
  | write
  | refTake
  | transferAccess
  deriving DecidableEq, Repr

/-- Modelled from the spec: any read/write/reference-take/transfer
attempted against a binding in a terminal state fails immediately with
invalidated-resource-use (moved out) or destroyed-resource-use
(destroyed); a valid binding yields its resource value. -/
def accessBinding (t : Tracker) (name : String) (_ : AccessKind) :
    Except ResourceUseError Nat :=
  match (t name).state with
  | .valid => .ok (t name).value
  | .invalidated => .error .invalidatedResourceUse
  | .destroyed => .error .destroyedResourceUse

/-- Modelled from the spec: moving a resource out of binding `src` into
binding `dst`.  A move out of a terminal binding fails with the
corresponding determinate error; a successful move makes `dst` a valid
binding holding the moved value and leaves `src` terminally
invalidated. -/
def moveOut (t : Tracker) (src dst : String) : Except ResourceUseError Tracker :=
  match (t src).state with
  | .valid =>
      let v := (t src).value
      .ok (setBinding (setBinding t src ⟨.invalidated, v⟩) dst ⟨.valid, v⟩)
  | .invalidated => .error .invalidatedResourceUse
  | .destroyed => .error .destroyedResourceUse

/-- Modelled from the spec: destroying the resource held by a binding.
Destroying a terminal binding fails; a successful destroy leaves the
binding terminally destroyed. -/
def destroyBinding (t : Tracker) (name : String) : Except ResourceUseError Tracker :=
  match (t name).state with
  | .valid => .ok (setBinding t name ⟨.destroyed, (t name).value⟩)
  | .invalidated => .error .invalidatedResourceUse
  | .destroyed => .error .destroyedResourceUse

/-! ## Ephemeral references (modelled from the spec) -/

/-- Modelled from the spec: an ephemeral reference aliases a binding
without owning its target. -/
structure EphemeralRef where
  target : String
  deriving Repr

/-- A function that returns the reference it was given, as in the test
`returnSameRef`; passing a reference through function calls does not
change which binding it aliases. -/
def returnSameRef (r : EphemeralRef) : EphemeralRef :=
  r

/-- Modelled from the spec: each access through an ephemeral reference
re-checks the liveness of the referent; if the referent's valid flag has
flipped (moved out or destroyed), resolution fails with an explicit
invalidated-resource-reference error rather than yielding the stale
value. -/
def refAccess (t : Tracker) (r : EphemeralRef) (_ : AccessKind) :
    Except ResourceUseError Nat :=
  match (t r.target).state with
  | .valid => .ok (t r.target).value
  | .invalidated => .error .invalidatedResourceReference
  | .destroyed => .error .invalidatedResourceReference

/-! ## Destructor machinery (modelled from the spec) -/

/-- Modelled from the spec: a composite resource instance, carrying the
destroyed flag that the destructor machinery sets before recursing into
field destructors. -/
structure CompositeInstance where
  destroyed : Bool
  deriving DecidableEq, Repr

/-- One step of a destructor body: an observable side effect, or a
reentrant attempt to destroy the same composite instance again (directly
or via reentrant calls that rotate/alias fields). -/
inductive DestroyAction where
  | effect (n : Nat)
  | reenterDestroy
  deriving DecidableEq, Repr

/-- Modelled from the spec: running a destructor body against an instance
whose destroyed flag reads `selfDestroyed`.  Side effects are logged in
order; a reentrant destroy of an already-marked instance is rejected with
destroyed-resource-use and nothing after it runs. -/
def runDestructorBody (selfDestroyed : Bool) :
    List DestroyAction → List Nat × Option ResourceUseError
  | [] => ([], none)
  | .effect n :: rest =>
      let (log, e) := runDestructorBody selfDestroyed rest
      (n :: log, e)
  | .reenterDestroy :: rest =>
      if selfDestroyed then
        ([], some .destroyedResourceUse)
      else
        runDestructorBody selfDestroyed rest

/-- Modelled from the spec: destroying a composite instance.  A second
destroy of an already-destroyed instance fails immediately with
destroyed-resource-use, running no side effects.  Otherwise the instance
is marked destroyed *before* its destructor body (including recursion
into field destructors) runs, so a reentrant destroy triggered from
within the body sees the marked instance and is rejected. -/
def destroyComposite (inst : CompositeInstance) (body : List DestroyAction) :
    CompositeInstance × List Nat × Option ResourceUseError :=
  if inst.destroyed then
    (inst, [], some .destroyedResourceUse)
  else
    let marked : CompositeInstance := ⟨true⟩
    let (log, e) := runDestructorBody true body
    (marked, log, e)

/-- The observable side effects of a destructor body, in order. -/
def destructorEffects (body : List DestroyAction) : List Nat :=
  body.filterMap fun a =>
    match a with
    | .effect n => some n
    | .reenterDestroy => none

/-! ## Recursive-transfer check (modelled from the spec) -/

/-- A heap of containers: each container address maps to the addresses of
its direct elements. -/
def ContainerHeap : Type :=
  List (Nat × List Nat)

/-- Modelled from the spec: the address-equality walk of the destination
chain — the addresses of the containers enclosing the destination slot,
innermost first — looking for the source container's address. -/
def walkDestinationChain (srcAddr : Nat) : List Nat → Bool
  | [] => false
  | a :: rest => srcAddr = a || walkDestinationChain srcAddr rest

/-- Performing the move: the source container's address is appended to the
destination container's elements. -/
def performMove (heap : ContainerHeap) (srcAddr destAddr : Nat) : ContainerHeap :=
  heap.map fun p => if p.1 = destAddr then (p.1, p.2 ++ [srcAddr]) else p

/-- Modelled from the spec: transferring a container into a slot of
another container.  The recursive-transfer check — the address-equality
walk of the destination chain — runs *before* the move is performed; if
the source container appears anywhere in the chain, the transfer fails
with a recursive-transfer error and the heap is returned unchanged. -/
def transferIntoContainer (heap : ContainerHeap) (srcAddr destAddr : Nat)
    (destChain : List Nat) : ContainerHeap × Option ResourceUseError :=
  if walkDestinationChain srcAddr destChain then
    (heap, some .recursiveTransfer)
  else
    (performMove heap srcAddr destAddr, none)

/-! ## Program cache (modelled from the spec) -/

/-- Modelled from the spec: a cached program — the parsed+checked result.
`progId` is the identity of the cached object (two programs are the same
object exactly when their ids agree; identities are allocated by a
per-environment counter), and `fromCode` records which code it was parsed
from. -/
structure Program where
  progId : Nat
  fromCode : Nat
  deriving DecidableEq, Repr

/-- Look up a key in an association list. -/
def lookupAssoc {α : Type} (l : List (Nat × α)) (k : Nat) : Option α :=
  match l with
  | [] => none
  | (k1, v) :: rest => if k1 = k then some v else lookupAssoc rest k

/-- Modelled from the spec: the execution environment seen by the program
cache — the deployed contract code per location, the per-execution
program cache, and the allocation counter for fresh program
identities. -/
structure ExecEnv where
  codes : List (Nat × Nat)
  cache : List (Nat × Program)
  nextId : Nat
  deriving Repr

/-- Parsing and checking code yields a program object with a fresh
identity, recording the code it came from. -/
def parseAndCheck (id code : Nat) : Program :=
  ⟨id, code⟩

/-- The result of `GetOrLoadProgram`: the program, the updated
environment, and whether the loader was invoked. -/
structure LoadResult where
  program : Program
  env : ExecEnv
  loaderInvoked : Bool
  deriving Repr

/-- Modelled from the spec: `GetOrLoadProgram(location, loader)` — returns
the cached parsed+checked program for the location if one exists (without
invoking the loader), and otherwise invokes the loader on the deployed
code, caches the resulting program object, and returns it. -/
def getOrLoadProgram (env : ExecEnv) (loc : Nat) : LoadResult :=
  match lookupAssoc env.cache loc with
  | some p => ⟨p, env, false⟩
  | none =>
      let code := (lookupAssoc env.codes loc).getD 0
      let p := parseAndCheck env.nextId code
      ⟨p,
       { env with cache := (loc, p) :: env.cache, nextId := env.nextId + 1 },
       true⟩

/-- Modelled from the spec: a contract-code update performed by the
currently executing transaction updates the deployed code but must not
retroactively change the already-cached program objects of this
execution; invalidation takes effect only at the next top-level entry. -/
def updateContractCode (env : ExecEnv) (loc code : Nat) : ExecEnv :=
  { env with codes := (loc, code) :: env.codes }

/-! ## Error classification (modelled from the spec) -/

/-- Modelled from the spec: the error taxonomy of the engine — user
errors (program-caused), internal errors (engine invariant violations),
external errors (collaborator-sourced, wrapping an error value), and
external non-errors (collaborator panics whose payload is not an error
type, preserved distinctly). -/
inductive ClassifiedError where
  | userError (code : Nat)
  | internalError (code : Nat)
  | externalError (code : Nat)
  | externalNonError (code : Nat)
  deriving DecidableEq, Repr

/-- A Go panic payload: an explicit engine error, a plain Go error value,
or a non-error value. -/
inductive PanicPayload where
  | engineError (e : ClassifiedError)
  | plainGoError (n : Nat)
  | nonErrorValue (n : Nat)
  deriving DecidableEq, Repr

/-- A panic recovered at the top-level entry point, together with whether
it was sourced from a collaborator (host-provided) callback. -/
structure RecoveredPanic where
  fromCollaborator : Bool
  payload : PanicPayload
  deriving DecidableEq, Repr

/-- Modelled from the spec: reclassification of a recovered panic at the
single top-level entry point — an explicit engine error type is passed
through; otherwise the panic is wrapped as internal, unless it was
sourced from a collaborator callback, in which case it is wrapped as
external (as an external error when the payload is an error value, and as
an external non-error wrapper otherwise). -/
def classifyRecoveredPanic (p : RecoveredPanic) : ClassifiedError :=
  match p.payload with
  | .engineError e => e
  | .plainGoError n =>
      if p.fromCollaborator then .externalError n else .internalError n
  | .nonErrorValue n =>
      if p.fromCollaborator then .externalNonError n else .internalError n

/-- The runtime error returned by the top-level entry points, wrapping the
classified inner error. -/
structure RuntimeError where
  inner : ClassifiedError
  deriving DecidableEq, Repr

/-- A transaction statement for the error-classification model: invoke the
host-provided log callback, or an effect-free statement. -/
inductive Stmt where
  | logStmt (message : String)
  | noop
  deriving DecidableEq, Repr

/-- Modelled from the spec: evaluation of a statement sequence against a
host log callback.  `logFn m = some payload` means the host callback
panicked with that payload when logging `m`; the first panic aborts
evaluation and is recorded as recovered from a collaborator callback. -/
def runStatements (logFn : String → Option PanicPayload) :
    List Stmt → Option RecoveredPanic
  | [] => none
  | .noop :: rest => runStatements logFn rest
  | .logStmt m :: rest =>
      match logFn m with
      | some payload => some ⟨true, payload⟩
      | none => runStatements logFn rest

/-- Modelled from the spec: `ExecuteTransaction` — evaluates the
statements and recovers any panic at the top level, returning a runtime
error wrapping the reclassified inner error. -/
def executeTransaction (logFn : String → Option PanicPayload) (stmts : List Stmt) :
    Except RuntimeError Unit :=
  match runStatements logFn stmts with
  | some p => .error ⟨classifyRecoveredPanic p⟩
  | none => .ok ()

/-- A statement is panic-free under a log callback when running it does
not make a host callback panic. -/
def panicFreeStmt (logFn : String → Option PanicPayload) : Stmt → Prop
  | .logStmt m => logFn m = none
  | .noop => True

instance (logFn : String → Option PanicPayload) (s : Stmt) :
    Decidable (panicFreeStmt logFn s) := by
  cases s <;> simp [panicFreeStmt] <;> infer_instance

/-! ## Computation metering (modelled from the spec) -/

/-- Modelled from the spec: evaluation of `while true {}` under the
computation-metering hook.  `meter k` is the result of the k-th
invocation of the `MeterComputation` callback (numbered from 1, one
invocation per loop iteration); a returned error aborts execution
immediately.  `fuel` bounds how many iterations we unfold; `hits` counts
callback invocations made so far.  The result is the total number of
metering hits and the abort error, if any. -/
def runInfiniteWhile (meter : Nat → Option Nat) :
    Nat → Nat → Nat × Option Nat
  | 0, hits => (hits, none)
  | fuel + 1, hits =>
      match meter (hits + 1) with
      | some e => (hits + 1, some e)
      | none => runInfiniteWhile meter fuel (hits + 1)

/-- Modelled from the spec: executing a transaction whose body is an
infinite while loop under a metering callback; a metering error aborts
execution and is propagated to the caller as an external error inside the
returned runtime error. -/
def executeMeteredLoop (meter : Nat → Option Nat) (fuel : Nat) :
    Nat × Except RuntimeError Unit :=
  let (hits, e) := runInfiniteWhile meter fuel 0
  match e with
  | some c => (hits, .error ⟨.externalError c⟩)
  | none => (hits, .ok ())

/-! ## Storage round trip (modelled from the spec) -/

/-- The resource type of the storage round-trip scenario (from the test
contract): a resource with a single Int field. -/
structure SomeNumber where
  n : Int
  deriving DecidableEq, Repr

/-- `createNumber` from the test contract: creates a `SomeNumber` holding
the given Int. -/
def createNumber (n : Int) : SomeNumber :=
  ⟨n⟩

/-- A stored value: a `SomeNumber` resource or some other value. -/
inductive StoredVal where
  | someNumber (v : SomeNumber)
  | otherVal (k : Nat)
  deriving DecidableEq, Repr

/-- One account storage domain: an insertion-ordered mapping from string
identifiers to stored values. -/
def AccountDomain : Type :=
  List (String × StoredVal)

/-- Look up an identifier in a storage domain. -/
def lookupStored (dom : AccountDomain) (id : String) : Option StoredVal :=
  match dom with
  | [] => none
  | (k, v) :: rest => if k = id then some v else lookupStored rest id

/-- Remove the entry for an identifier from a storage domain. -/
def removeStored (id : String) : AccountDomain → AccountDomain
  | [] => []
  | (k, v) :: rest => if k = id then rest else (k, v) :: removeStored id rest

/-- Modelled from the spec: `save` stores a value under an identifier;
saving to an occupied path fails. -/
def saveValue (dom : AccountDomain) (id : String) (v : StoredVal) :
    Option AccountDomain :=
  match lookupStored dom id with
  | some _ => none
  | none => some ((id, v) :: dom)

/-- Modelled from the spec: `load` reads the value stored under an
identifier and removes it from storage, returning nil when nothing is
stored there. -/
def loadValue (dom : AccountDomain) (id : String) :
    Option StoredVal × AccountDomain :=
  match lookupStored dom id with
  | some v => (some v, removeStored id dom)
  | none => (none, dom)

/-! ## Theorems -/

/-- Claim C10: an `AccountReferenceValue` is never persistable and is inert
under the transfer protocol — `IsStorable` is false and `Storable` wraps
the value as `NonStorable`, `IsResourceKinded` is false, `Transfer`
returns the very same reference value unchanged, `DeepRemove` is a no-op
on the slab store, and `Clone` produces a new reference with the same
address and the same borrowed type, `Equal` to the original. -/
theorem accountReference_nonstorable_inert
    (v : AccountReferenceValue) (remove : Bool) (s : List Nat) (a : Nat) :
    v.isStorable = false
    ∧ v.storable = .nonStorable v
    ∧ v.needsStoreTo a = false
    ∧ v.isResourceKinded = false
    ∧ (v.transfer remove).1 = v
    ∧ v.deepRemove s = s
    ∧ v.clone.address = v.address
    ∧ v.clone.borrowedType = v.borrowedType
    ∧ v.equal v.clone = true := by
  refine ⟨rfl, rfl, rfl, rfl, rfl, rfl, rfl, rfl, ?_⟩
  simp only [AccountReferenceValue.equal, AccountReferenceValue.clone,
    newUnmeteredAccountReferenceValue]
  cases v.borrowedType <;> simp

/-- Claim C9: invoking an account's `getCapability` function fails with a
type-mismatch error exactly when the path argument's static type is not a
subtype of the required path type; otherwise it always returns a
capability value, even when nothing is stored at (address, path) — an
ID-based capability carrying the caller's requested borrow type whenever
an ID capability value is stored there (the stored capability's own
borrow type is never consulted), and a path-based capability in every
other case. -/
theorem getCapability_check_then_untyped_lookup
    (isSubType : SemaType → SemaType → Bool)
    (readStored : Nat → PathDomain → String → Option IValue)
    (address : Nat) (requiredPathType : SemaType) (pathArg : PathValue)
    (typeParameter : Option SemaType) :
    (isSubType pathArg.staticType requiredPathType = false →
      accountGetCapabilityFunction isSubType readStored address requiredPathType
          pathArg typeParameter
        = .typeMismatch requiredPathType pathArg.staticType)
    ∧ (isSubType pathArg.staticType requiredPathType = true →
        (∃ v, accountGetCapabilityFunction isSubType readStored address requiredPathType
            pathArg typeParameter = .value v)
        ∧ (∀ id a b,
            readStored address pathArg.domain pathArg.identifier
              = some (.idCapability id a b) →
            accountGetCapabilityFunction isSubType readStored address requiredPathType
                pathArg typeParameter
              = .value (.idCapability id address (requestedBorrowStaticType typeParameter)))
        ∧ ((∀ id a b,
            readStored address pathArg.domain pathArg.identifier
              ≠ some (.idCapability id a b)) →
            accountGetCapabilityFunction isSubType readStored address requiredPathType
                pathArg typeParameter
              = .value (.pathCapability address pathArg
                  (requestedBorrowStaticType typeParameter)))) := by
  constructor
  · intro hfail
    simp [accountGetCapabilityFunction, hfail]
  · intro hok
    refine ⟨?_, ?_, ?_⟩
    · simp only [accountGetCapabilityFunction, hok]
      cases hr : readStored address pathArg.domain pathArg.identifier with
      | none => exact ⟨_, rfl⟩
      | some v => cases v <;> exact ⟨_, rfl⟩
    · intro id a b hr
      simp [accountGetCapabilityFunction, hok, hr]
    · intro hnotid
      simp only [accountGetCapabilityFunction, hok]
      cases hr : readStored address pathArg.domain pathArg.identifier with
      | none => simp
      | some v =>
        cases v with
        | idCapability id a b => exact absurd hr (hnotid id a b)
        | pathCapability a p b => simp
        | someOther n => simp

/-- A sample subtype check used to exercise the capability lookup: the
public-path type is a subtype of the capability-path type, and every type
of itself. -/
def sampleSubType (t u : SemaType) : Bool :=
  t = u || (t = .publicPathType && u = .capabilityPathType)

/-- A sample stored-value reader: an ID capability with ID 5, owner
address 9 and no borrow type is stored at the inspected path. -/
def sampleReadStored (_ : Nat) (_ : PathDomain) (_ : String) : Option IValue :=
  some (.idCapability 5 9 none)

/-- The sample path used to exercise the capability lookup. -/
def samplePath : PathValue :=
  ⟨.public, "cap"⟩

theorem getCapability_check_then_untyped_lookup_witness :
    sampleSubType samplePath.staticType .capabilityPathType = true
    ∧ sampleReadStored 1 samplePath.domain samplePath.identifier
        = some (.idCapability 5 9 none)
    ∧ accountGetCapabilityFunction sampleSubType sampleReadStored 1 .capabilityPathType
        samplePath (some (.referenceType true (.otherType 0)))
      = .value (.idCapability 5 1 (some (.referenceType true (.otherType 0)))) :=
  ⟨by decide, rfl,
    ((getCapability_check_then_untyped_lookup sampleSubType sampleReadStored 1
        .capabilityPathType samplePath
        (some (.referenceType true (.otherType 0)))).2 (by decide)).2.1 5 9 none rfl⟩

/-- Moving out of a valid binding always succeeds. -/
theorem moveOut_ok_of_valid (t : Tracker) (src dst : String)
    (h : (t src).state = .valid) :
    ∃ t2, moveOut t src dst = .ok t2 := by
  simp only [moveOut, h]
  exact ⟨_, rfl⟩

/-- Claim C1: for every resource-kinded value, after a successful move out
of binding `src`, any subsequent access to `src` — read, write,
reference-take, or transfer (a further move out of `src`) — fails with the
invalidated-resource-use error, while the moved value remains fully usable
at its new location `dst`: every access kind yields the moved value and a
further transfer out of `dst` succeeds.  A double-withdraw that tries to
use the old binding after the move is therefore rejected rather than
duplicating the resource. -/
theorem resource_move_once (t : Tracker) (src dst : String) (hne : src ≠ dst)
    (hv : (t src).state = .valid) :
    ∃ t1, moveOut t src dst = .ok t1
      ∧ (∀ k, accessBinding t1 src k = .error .invalidatedResourceUse)
      ∧ (∀ dst2, moveOut t1 src dst2 = .error .invalidatedResourceUse)
      ∧ (∀ k, accessBinding t1 dst k = .ok (t src).value)
      ∧ (∀ dst2, ∃ t2, moveOut t1 dst dst2 = .ok t2) := by
  refine ⟨setBinding (setBinding t src ⟨.invalidated, (t src).value⟩) dst
      ⟨.valid, (t src).value⟩, ?_, ?_, ?_, ?_, ?_⟩
  · simp only [moveOut, hv]
  · intro k
    simp [accessBinding, setBinding, hne]
  · intro dst2
    simp [moveOut, setBinding, hne]
  · intro k
    simp [accessBinding, setBinding]
  · intro dst2
    exact moveOut_ok_of_valid _ dst dst2 (by simp [setBinding])

/-- A sample tracker where every binding is valid and holds resource 7. -/
def sampleTracker : Tracker :=
  fun _ => ⟨.valid, 7⟩

theorem resource_move_once_witness :
    ("a" : String) ≠ "b" ∧ (sampleTracker "a").state = .valid
    ∧ ∃ t1, moveOut sampleTracker "a" "b" = .ok t1
      ∧ (∀ k, accessBinding t1 "a" k = .error .invalidatedResourceUse)
      ∧ (∀ dst2, moveOut t1 "a" dst2 = .error .invalidatedResourceUse)
      ∧ (∀ k, accessBinding t1 "b" k = .ok (sampleTracker "a").value)
      ∧ (∀ dst2, ∃ t2, moveOut t1 "b" dst2 = .ok t2) :=
  ⟨by decide, rfl, resource_move_once sampleTracker "a" "b" (by decide) rfl⟩

/-- Claim C2: for every ephemeral reference taken to a binding, if the
referent is later moved out or destroyed, then any subsequent access
through the reference — even after the reference was passed through
function calls — fails with the invalidated-resource-reference error and
never returns the stale value. -/
theorem reference_liveness (t : Tracker) (r : EphemeralRef) (dst : String)
    (hne : dst ≠ r.target) :
    (∀ t1, moveOut t r.target dst = .ok t1 →
      ∀ k, refAccess t1 (returnSameRef r) k = .error .invalidatedResourceReference
        ∧ ∀ v, refAccess t1 (returnSameRef r) k ≠ .ok v)
    ∧ (∀ t2, destroyBinding t r.target = .ok t2 →
      ∀ k, refAccess t2 (returnSameRef r) k = .error .invalidatedResourceReference
        ∧ ∀ v, refAccess t2 (returnSameRef r) k ≠ .ok v) := by
  constructor
  · intro t1 h1 k
    have hstate : (t r.target).state = .valid := by
      cases hs : (t r.target).state <;> simp [moveOut, hs] at h1 <;> try rfl
    simp only [moveOut, hstate] at h1
    injection h1 with h1
    subst h1
    constructor
    · simp [refAccess, returnSameRef, setBinding, Ne.symm hne]
    · intro v
      simp [refAccess, returnSameRef, setBinding, Ne.symm hne]
  · intro t2 h2 k
    have hstate : (t r.target).state = .valid := by
      cases hs : (t r.target).state <;> simp [destroyBinding, hs] at h2 <;> try rfl
    simp only [destroyBinding, hstate] at h2
    injection h2 with h2
    subst h2
    constructor
    · simp [refAccess, returnSameRef, setBinding]
    · intro v
      simp [refAccess, returnSameRef, setBinding]

theorem reference_liveness_witness :
    ("b" : String) ≠ "a"
    ∧ (∀ t1, moveOut sampleTracker "a" "b" = .ok t1 →
      ∀ k, refAccess t1 (returnSameRef ⟨"a"⟩) k = .error .invalidatedResourceReference
        ∧ ∀ v, refAccess t1 (returnSameRef ⟨"a"⟩) k ≠ .ok v)
    ∧ (∀ t2, destroyBinding sampleTracker "a" = .ok t2 →
      ∀ k, refAccess t2 (returnSameRef ⟨"a"⟩) k = .error .invalidatedResourceReference
        ∧ ∀ v, refAccess t2 (returnSameRef ⟨"a"⟩) k ≠ .ok v) :=
  ⟨by decide,
    (reference_liveness sampleTracker ⟨"a"⟩ "b" (by decide)).1,
    (reference_liveness sampleTracker ⟨"a"⟩ "b" (by decide)).2⟩

/-- Running a destructor body against a marked instance stops at the first
reentrant destroy: the side effects before it run exactly once and the
reentrant attempt is rejected with destroyed-resource-use. -/
theorem runDestructorBody_reenter (pre post : List DestroyAction)
    (hpre : DestroyAction.reenterDestroy ∉ pre) :
    runDestructorBody true (pre ++ .reenterDestroy :: post)
      = (destructorEffects pre, some .destroyedResourceUse) := by
  induction pre with
  | nil => simp [runDestructorBody, destructorEffects]
  | cons a rest ih =>
      cases a with
      | effect n =>
          have hrest : DestroyAction.reenterDestroy ∉ rest := by
            intro hmem
            exact hpre (List.mem_cons_of_mem _ hmem)
          simp [runDestructorBody, destructorEffects, ih hrest]
      | reenterDestroy =>
          exact absurd (List.mem_cons_self _ _) hpre

/-- Claim C3: destroying the same composite instance twice fails on the
second attempt — both for a direct second destroy (which runs none of the
destructor side effects again) and for a reentrant destroy triggered from
within the destructor body, which is rejected because the instance is
marked destroyed before its field destructors are recursed into; the side
effects of the first destroy run at most once (exactly those preceding the
reentrant attempt). -/
theorem destroy_terminality (inst : CompositeInstance)
    (body body2 : List DestroyAction) (h : inst.destroyed = false) :
    (destroyComposite inst body).1 = ⟨true⟩
    ∧ destroyComposite (destroyComposite inst body).1 body2
        = (⟨true⟩, [], some .destroyedResourceUse)
    ∧ (∀ pre post, body = pre ++ .reenterDestroy :: post →
        DestroyAction.reenterDestroy ∉ pre →
        destroyComposite inst body
          = (⟨true⟩, destructorEffects pre, some .destroyedResourceUse)) := by
  refine ⟨?_, ?_, ?_⟩
  · simp [destroyComposite, h]
  · simp [destroyComposite, h]
  · intro pre post hbody hpre
    subst hbody
    simp [destroyComposite, h, runDestructorBody_reenter pre post hpre]

theorem destroy_terminality_witness :
    (CompositeInstance.mk false).destroyed = false
    ∧ destroyComposite ⟨false⟩ [.effect 1, .reenterDestroy, .effect 2]
        = (⟨true⟩, [1], some .destroyedResourceUse) :=
  ⟨rfl,
    (destroy_terminality ⟨false⟩ [.effect 1, .reenterDestroy, .effect 2] [] rfl).2.2
      [.effect 1] [.effect 2] rfl (by decide)⟩

/-- The address-equality walk of the destination chain finds the source
address exactly when it occurs in the chain. -/
theorem walkDestinationChain_eq_mem (srcAddr : Nat) (chain : List Nat) :
    walkDestinationChain srcAddr chain = true ↔ srcAddr ∈ chain := by
  induction chain with
  | nil => simp [walkDestinationChain]
  | cons a rest ih => simp [walkDestinationChain, ih]

/-- Claim C4: transferring a container into one of its own fields or
elements — directly or via a nested field, i.e. whenever the source
container's address occurs anywhere in the destination chain — fails with
the recursive-transfer error and leaves the heap unchanged, so the failure
occurs before any mutation of the container is visible; when the source
does not occur in the destination chain the move is performed. -/
theorem no_self_containment (heap : ContainerHeap) (srcAddr destAddr : Nat)
    (destChain : List Nat) :
    (srcAddr ∈ destChain →
      transferIntoContainer heap srcAddr destAddr destChain
        = (heap, some .recursiveTransfer))
    ∧ (srcAddr ∉ destChain →
      transferIntoContainer heap srcAddr destAddr destChain
        = (performMove heap srcAddr destAddr, none)) := by
  constructor
  · intro hmem
    simp [transferIntoContainer, (walkDestinationChain_eq_mem srcAddr destChain).mpr hmem]
  · intro hnot
    have hwalk : walkDestinationChain srcAddr destChain = false := by
      cases hw : walkDestinationChain srcAddr destChain with
      | false => rfl
      | true => exact absurd ((walkDestinationChain_eq_mem srcAddr destChain).mp hw) hnot
    simp [transferIntoContainer, hwalk]

theorem no_self_containment_witness :
    (3 ∈ [4, 3, 9]) ∧
    transferIntoContainer [(3, [4]), (4, [])] 3 4 [4, 3, 9]
      = ([(3, [4]), (4, [])], some .recursiveTransfer) :=
  ⟨by decide,
    (no_self_containment [(3, [4]), (4, [])] 3 4 [4, 3, 9]).1 (by decide)⟩

/-- Claim C5: calling `GetOrLoadProgram` twice for the same location
within one execution returns the identical cached program object without
re-invoking the loader and without changing the environment, and a
mid-execution contract-code update for that location does not replace the
already-cached program object: a further lookup still returns the original
object, again without invoking the loader. -/
theorem program_cache_consistency (env : ExecEnv) (loc newCode : Nat) :
    (getOrLoadProgram (getOrLoadProgram env loc).env loc).program
        = (getOrLoadProgram env loc).program
    ∧ (getOrLoadProgram (getOrLoadProgram env loc).env loc).loaderInvoked = false
    ∧ (getOrLoadProgram (getOrLoadProgram env loc).env loc).env
        = (getOrLoadProgram env loc).env
    ∧ (getOrLoadProgram
          (updateContractCode (getOrLoadProgram env loc).env loc newCode) loc).program
        = (getOrLoadProgram env loc).program
    ∧ (getOrLoadProgram
          (updateContractCode (getOrLoadProgram env loc).env loc newCode) loc).loaderInvoked
        = false := by
  cases h : lookupAssoc env.cache loc with
  | some p =>
      refine ⟨?_, ?_, ?_, ?_, ?_⟩ <;>
        simp [getOrLoadProgram, updateContractCode, h]
  | none =>
      have hcons : ∀ (c : List (Nat × Program)) (q : Program),
          lookupAssoc ((loc, q) :: c) loc = some q := by
        intro c q
        simp [lookupAssoc]
      refine ⟨?_, ?_, ?_, ?_, ?_⟩ <;>
        simp [getOrLoadProgram, updateContractCode, h, hcons]

/-- Claim C6: when a host-provided callback (the log function) panics
during execution, the top-level entry point recovers the panic and returns
a runtime error whose inner error is classified as an external error — an
external-error wrapper when the panicked value is an error, and the
distinct external non-error wrapper when it is not — and both wrappers are
distinct from user errors and internal errors. -/
theorem collaborator_panic_external (logFn : String → Option PanicPayload)
    (pre post : List Stmt) (m : String)
    (hpre : ∀ s ∈ pre, panicFreeStmt logFn s) :
    (∀ n, logFn m = some (.plainGoError n) →
        executeTransaction logFn (pre ++ .logStmt m :: post)
          = .error ⟨.externalError n⟩)
    ∧ (∀ n, logFn m = some (.nonErrorValue n) →
        executeTransaction logFn (pre ++ .logStmt m :: post)
          = .error ⟨.externalNonError n⟩)
    ∧ (∀ n k, ClassifiedError.externalError n ≠ .userError k
        ∧ ClassifiedError.externalError n ≠ .internalError k
        ∧ ClassifiedError.externalNonError n ≠ .userError k
        ∧ ClassifiedError.externalNonError n ≠ .internalError k
        ∧ ClassifiedError.externalNonError n ≠ .externalError k) := by
  have hrun : ∀ payload, logFn m = some payload →
      runStatements logFn (pre ++ .logStmt m :: post) = some ⟨true, payload⟩ := by
    intro payload hm
    induction pre with
    | nil => simp [runStatements, hm]
    | cons s rest ih =>
        have hs := hpre s (List.mem_cons_self s rest)
        have hrest : ∀ s ∈ rest, panicFreeStmt logFn s := by
          intro s2 hs2
          exact hpre s2 (List.mem_cons_of_mem _ hs2)
        cases s with
        | noop => simpa [runStatements] using ih hrest
        | logStmt m2 =>
            simp only [panicFreeStmt] at hs
            simpa [runStatements, hs] using ih hrest
  refine ⟨?_, ?_, ?_⟩
  · intro n hm
    simp [executeTransaction, hrun _ hm, classifyRecoveredPanic]
  · intro n hm
    simp [executeTransaction, hrun _ hm, classifyRecoveredPanic]
  · intro n k
    refine ⟨?_, ?_, ?_, ?_, ?_⟩ <;> intro hcontra <;> cases hcontra

/-- The log callback used to exercise the error classification: it always
panics with a non-error-typed value. -/
def panickingLogFn (_ : String) : Option PanicPayload :=
  some (.nonErrorValue 7)

theorem collaborator_panic_external_witness :
    (∀ s ∈ ([.noop] : List Stmt), panicFreeStmt panickingLogFn s)
    ∧ panickingLogFn "ok" = some (.nonErrorValue 7)
    ∧ executeTransaction panickingLogFn ([.noop] ++ .logStmt "ok" :: [])
        = .error ⟨.externalNonError 7⟩ :=
  ⟨by intro s hs; simp at hs; subst hs; trivial,
    rfl,
    (collaborator_panic_external panickingLogFn [.noop] [] "ok"
      (by intro s hs; simp at hs; subst hs; trivial)).2.1 7 rfl⟩

/-- Once the metering callback starts returning an error, the loop aborts
at exactly that invocation: with any fuel at least `limit - hits`
remaining, evaluation returns the error with exactly `limit` total
metering hits. -/
theorem runInfiniteWhile_abort (meter : Nat → Option Nat) (limit e : Nat)
    (hbefore : ∀ k, k < limit → meter k = none)
    (hat : meter limit = some e) :
    ∀ fuel hits, hits < limit → limit ≤ fuel + hits →
      runInfiniteWhile meter fuel hits = (limit, some e) := by
  intro fuel
  induction fuel with
  | zero =>
      intro hits hlt hle
      omega
  | succ f ih =>
      intro hits hlt hle
      by_cases hnext : hits + 1 = limit
      · subst hnext
        simp [runInfiniteWhile, hat]
      · have hlt2 : hits + 1 < limit := by omega
        simp only [runInfiniteWhile, hbefore (hits + 1) hlt2]
        exact ih (hits + 1) hlt2 (by omega)

/-- Claim C7: the `MeterComputation` callback is invoked once per loop
iteration, and as soon as it returns an error the execution aborts
immediately with that error propagated to the caller as an external error
inside the returned runtime error: an infinite while loop terminates at
exactly the first erroring invocation (the `limit`-th hit), independently
of how much more fuel remains, and no metering hits occur after the
abort. -/
theorem metering_abort (meter : Nat → Option Nat) (limit e fuel : Nat)
    (hpos : 0 < limit)
    (hbefore : ∀ k, k < limit → meter k = none)
    (hat : meter limit = some e)
    (hfuel : limit ≤ fuel) :
    runInfiniteWhile meter fuel 0 = (limit, some e)
    ∧ executeMeteredLoop meter fuel = (limit, .error ⟨.externalError e⟩) := by
  have hrun : runInfiniteWhile meter fuel 0 = (limit, some e) := by
    cases limit with
    | zero => omega
    | succ l =>
        cases fuel with
        | zero => omega
        | succ f =>
            by_cases hone : l = 0
            · subst hone
              simp [runInfiniteWhile, hat]
            · have h1 : (0 : Nat) + 1 < l + 1 := by omega
              simp only [runInfiniteWhile, hbefore 1 (by omega)]
              exact runInfiniteWhile_abort meter (l + 1) e hbefore hat f 1
                (by omega) (by omega)
  exact ⟨hrun, by simp [executeMeteredLoop, hrun]⟩

/-- The metering callback of the computation-metering test: every hit from
the sixth on returns the error. -/
def sampleMeter (k : Nat) : Option Nat :=
  if 6 ≤ k then some 3 else none

theorem metering_abort_witness :
    (0 < 6 ∧ sampleMeter 6 = some 3 ∧ 6 ≤ 100)
    ∧ runInfiniteWhile sampleMeter 100 0 = (6, some 3)
    ∧ executeMeteredLoop sampleMeter 100 = (6, .error ⟨.externalError 3⟩) :=
  ⟨⟨by decide, rfl, by decide⟩,
    metering_abort sampleMeter 6 3 100 (by decide)
      (fun k hk => by simp [sampleMeter]; omega) rfl (by decide)⟩

/-- Claim C8: saving a resource whose Int field was initialized to 42 to a
previously empty storage path succeeds; a later load of that resource type
from the same path observes the field value 42 and removes the stored
value, so a subsequent load from the now-empty path returns nil. -/
theorem storage_round_trip (dom : AccountDomain)
    (h : lookupStored dom "number" = none) :
    ∃ dom1, saveValue dom "number" (.someNumber (createNumber 42)) = some dom1
      ∧ ∃ v dom2, loadValue dom1 "number" = (some (.someNumber v), dom2)
        ∧ v.n = 42
        ∧ (loadValue dom2 "number").1 = none := by
  refine ⟨("number", .someNumber (createNumber 42)) :: dom, ?_, createNumber 42, dom,
    ?_, rfl, ?_⟩
  · simp [saveValue, h]
  · simp [loadValue, lookupStored, removeStored]
  · simp [loadValue, h]

theorem storage_round_trip_witness :
    lookupStored ([("other", .otherVal 1)] : AccountDomain) "number" = none
    ∧ ∃ dom1,
        saveValue [("other", .otherVal 1)] "number" (.someNumber (createNumber 42))
          = some dom1
        ∧ ∃ v dom2, loadValue dom1 "number" = (some (.someNumber v), dom2)
          ∧ v.n = 42
          ∧ (loadValue dom2 "number").1 = none :=
  ⟨by simp [lookupStored],
    storage_round_trip [("other", .otherVal 1)] (by simp [lookupStored])⟩

end Cadence
